import Mathlib

/-!
Verification development for the webhook ingestion and query service
(`src/main.py`).  The Python source is shallowly embedded: the SQLite
`messages` table becomes a list of records, the in-memory metrics
dictionaries become total functions with default 0, the structured log
becomes a list of entries, and each HTTP handler becomes a pure function
from its inputs and the application state to the new state and a response.
Library code that is not part of the repository (HMAC-SHA256, the JSON
parser) is abstracted as function parameters / pre-parsed values.
-/

namespace Lyftr

/-- A row of the SQLite `messages` table created in `startup`
(src/main.py lines 29-38): columns `message_id` (TEXT PRIMARY KEY),
`from_msisdn`, `to_msisdn`, `ts` (all TEXT NOT NULL), `text` (TEXT,
nullable), `created_at` (TEXT NOT NULL). -/
structure Message where
  message_id : String
  from_msisdn : String
  to_msisdn : String
  ts : String
  text : Option String
  created_at : String
deriving Repr, DecidableEq

/-- A minimal JSON value, enough to describe the payloads the pydantic
model `WebhookMessage` can receive from `await request.json()`. -/
inductive JValue where
  | null
  | str (s : String)
  | num (n : Int)
  | boolean (b : Bool)
  | other
deriving Repr, DecidableEq

/-- The result of `await request.json()` when it yields a JSON object:
an association of keys to values (a Python dict has no duplicate keys;
lookup takes the first binding). -/
def Payload := List (String × JValue)

/-- The validated payload, i.e. a constructed pydantic `WebhookMessage`
(src/main.py lines 69-74).  The `from` JSON key is bound to the field
`from_` via an alias in the source; the source's field `to` is written
`to_` here because `to` is a Lean keyword. -/
structure WebhookMessage where
  message_id : String
  from_ : String
  to_ : String
  ts : String
  text : Option String
deriving Repr, DecidableEq

/-- The regex check `^\+\d+$` used by the pydantic fields `from_` and `to`
(src/main.py lines 71-72): a `+` followed by one or more digits.
(Python's `\d` also accepts non-ASCII digits; the service's phone numbers
are ASCII, which this embedding models.) -/
def isMsisdn (s : String) : Bool :=
  match s.data with
  | '+' :: rest => !rest.isEmpty && rest.all Char.isDigit
  | _ => false

/-- Validation performed by constructing `WebhookMessage(**data)`
(src/main.py lines 69-74 and 103): `message_id` a string with
`min_length=1`; `from` and `to` strings matching `^\+\d+$`; `ts` a
string; `text` optional (absent or JSON null gives `None`), a string of
length at most 4096 otherwise.  `none` models a raised
`pydantic.ValidationError`; extra keys are ignored (pydantic default). -/
def validatePayload (data : Payload) : Option WebhookMessage :=
  match List.lookup "message_id" data, List.lookup "from" data,
        List.lookup "to" data, List.lookup "ts" data with
  | some (.str mid), some (.str f), some (.str t), some (.str ts) =>
    if 1 ≤ mid.length && isMsisdn f && isMsisdn t then
      match List.lookup "text" data with
      | none => some ⟨mid, f, t, ts, none⟩
      | some .null => some ⟨mid, f, t, ts, none⟩
      | some (.str x) =>
        if x.length ≤ 4096 then some ⟨mid, f, t, ts, some x⟩ else none
      | some _ => none
    else none
  | _, _, _, _ => none

/-- The row inserted by the webhook handler (src/main.py lines 107-117):
the validated fields plus the server-assigned `created_at` (here the
parameter `now`, standing for `datetime.utcnow().isoformat() + "Z"`). -/
def mkRecord (m : WebhookMessage) (now : String) : Message :=
  { message_id := m.message_id
    from_msisdn := m.from_
    to_msisdn := m.to_
    ts := m.ts
    text := m.text
    created_at := now }

/-- The `INSERT INTO messages VALUES (...)` statement against the table
whose primary key is `message_id`: `none` models the
`sqlite3.IntegrityError` raised on a primary-key conflict (the store is
unchanged), `some` the successful insert. -/
def insertMessage (store : List Message) (m : Message) : Option (List Message) :=
  if store.any (fun r => r.message_id == m.message_id) then none
  else some (store ++ [m])

/-- One structured log line as printed by `log` (src/main.py lines 43-55):
the request path and status plus the endpoint-specific `extra` fields used
by the webhook handler (`result`, `message_id`, `dup`).  The timestamp,
request id, method and latency carry no information the claims mention. -/
structure LogEntry where
  path : String
  status : Nat
  result : Option String
  message_id : Option String
  dup : Option Bool
deriving Repr, DecidableEq

/-- `HTTP_METRICS[(path, status)] = HTTP_METRICS.get(key, 0) + 1`
(src/main.py lines 61-63), with the dictionary modelled as a total
function defaulting to 0. -/
def inc_http (m : String × Nat → Nat) (path : String) (status : Nat) :
    String × Nat → Nat :=
  fun k => if k = (path, status) then m k + 1 else m k

/-- `WEBHOOK_METRICS[result] = WEBHOOK_METRICS.get(result, 0) + 1`
(src/main.py lines 65-66). -/
def inc_webhook (m : String → Nat) (result : String) : String → Nat :=
  fun k => if k = result then m k + 1 else m k

/-- The whole mutable state of the process: the `messages` table, the two
metrics dictionaries, and the stream of structured log lines. -/
structure AppState where
  store : List Message
  httpMetrics : String × Nat → Nat
  webhookMetrics : String → Nat
  logs : List LogEntry

/-- The state of a freshly started process: empty table, all counters 0,
no log lines. -/
def initialState : AppState :=
  { store := [], httpMetrics := fun _ => 0, webhookMetrics := fun _ => 0, logs := [] }

/-- What the webhook handler hands back to the framework: a normal
return value (`{"status":"ok"}`, sent with status 200), a raised
`HTTPException`, or an exception the handler does not catch
(`json.JSONDecodeError`, `pydantic.ValidationError`, or a non-integrity
database error), which escapes to the framework. -/
inductive WebhookReply where
  | ok
  | httpError (status : Nat) (detail : String)
  | unhandledError
deriving Repr, DecidableEq

/-- The HTTP status the caller observes for each handler result: 200 for
the normal return, the carried status for an `HTTPException`, and 500 for
an exception that escapes the handler (the ASGI framework's default
server-error response for uncaught exceptions). -/
def responseStatus : WebhookReply → Nat
  | .ok => 200
  | .httpError s _ => s
  | .unhandledError => 500

/-- The `POST /webhook` handler (src/main.py lines 84-134).  `hmacHex`
abstracts `hmac.new(secret.encode(), body, sha256).hexdigest()` (library
code outside the repository); `signature` is the `X-Signature` header
(`none` when absent); `parsed` is the outcome of `await request.json()`
(`none` when the body is not a JSON object, in which case the handler's
own line raises and nothing after it runs); `now` is the server clock
reading used for `created_at`.  The handler checks the signature, then
parses and validates, then inserts, classifying a primary-key conflict as
`duplicate`, and finally bumps the counters and logs exactly as the
source does on each path. -/
def webhook (secret : String) (hmacHex : String → String → String)
    (body : String) (signature : Option String)
    (parsed : Option Payload) (now : String) (st : AppState) :
    AppState × WebhookReply :=
  let expected := hmacHex secret body
  if signature ≠ some expected then
    ({ st with
        httpMetrics := inc_http st.httpMetrics "/webhook" 401
        webhookMetrics := inc_webhook st.webhookMetrics "invalid_signature"
        logs := st.logs ++ [⟨"/webhook", 401, some "invalid_signature", none, none⟩] },
      .httpError 401 "invalid signature")
  else
    match parsed with
    | none => (st, .unhandledError)
    | some data =>
      match validatePayload data with
      | none => (st, .unhandledError)
      | some msg =>
        match insertMessage st.store (mkRecord msg now) with
        | some store2 =>
          ({ st with
              store := store2
              httpMetrics := inc_http st.httpMetrics "/webhook" 200
              webhookMetrics := inc_webhook st.webhookMetrics "created"
              logs := st.logs ++
                [⟨"/webhook", 200, some "created", some msg.message_id, some false⟩] },
            .ok)
        | none =>
          ({ st with
              httpMetrics := inc_http st.httpMetrics "/webhook" 200
              webhookMetrics := inc_webhook st.webhookMetrics "duplicate"
              logs := st.logs ++
                [⟨"/webhook", 200, some "duplicate", some msg.message_id, some true⟩] },
            .ok)

/-- A correctly signed delivery: the `X-Signature` header carries exactly
the hex HMAC of the raw body. -/
def signedWebhook (secret : String) (hmacHex : String → String → String)
    (body : String) (parsed : Option Payload) (now : String) (st : AppState) :
    AppState × WebhookReply :=
  webhook secret hmacHex body (some (hmacHex secret body)) parsed now st

/-- ASCII lowercasing of one character, the folding performed by SQLite's
`LOWER` (which, without the ICU extension, lowercases only `A`-`Z`).  The
source also applies Python's `q.lower()` to the query string; the two
agree on ASCII, which this embedding models. -/
def lowerChar (c : Char) : Char :=
  if 'A' ≤ c && c ≤ 'Z' then Char.ofNat (c.toNat + 32) else c

/-- ASCII lowercasing of a string (SQLite `LOWER`). -/
def sqlLower (s : String) : String := ⟨s.data.map lowerChar⟩

/-- All suffixes of a character list, longest first (including the list
itself and the empty suffix). -/
def suffixes : List Char → List (List Char)
  | [] => [[]]
  | c :: cs => (c :: cs) :: suffixes cs

/-- SQLite `LIKE` pattern matching over already-lowercased text: `%`
matches any sequence of characters, `_` matches exactly one character,
every other pattern character matches itself.  (`LIKE` folds ASCII case
on both sides; both inputs here are already `LOWER`ed, so plain equality
is that same comparison.) -/
def likeMatch : List Char → List Char → Bool
  | [], t => t.isEmpty
  | '%' :: ps, t => (suffixes t).any (fun s => likeMatch ps s)
  | '_' :: ps, t =>
    match t with
    | [] => false
    | _ :: cs => likeMatch ps cs
  | p :: ps, t =>
    match t with
    | [] => false
    | c :: cs => p == c && likeMatch ps cs

/-- Bytewise (memcmp) strict comparison of two character lists, the
order SQLite uses for TEXT values (memcmp over UTF-8 coincides with the
codepoint-lexicographic order modelled here). -/
def charListLt : List Char → List Char → Bool
  | [], [] => false
  | [], _ :: _ => true
  | _ :: _, [] => false
  | a :: as, b :: bs => if a < b then true else if a = b then charListLt as bs else false

/-- SQLite TEXT `<` on strings. -/
def strLt (a b : String) : Bool := charListLt a.data b.data

/-- SQLite TEXT `<=` on strings (the total order's reflexive closure). -/
def strLe (a b : String) : Bool := !(strLt b a)

/-- The conjunctive `WHERE` clause built by `get_messages`
(src/main.py lines 142-155) evaluated on one row: `from_msisdn = ?` when
`from_` is truthy (present and non-empty), `ts >= ?` when `since` is
truthy, and `LOWER(text) LIKE '%' || lower(q) || '%'` when `q` is truthy.
A row whose `text` is NULL never satisfies the `LIKE` clause (`LOWER(NULL)`
is NULL and `NULL LIKE p` is not true). -/
def rowMatches (from_ since q : Option String) (m : Message) : Bool :=
  (match from_ with
   | some f => if f = "" then true else m.from_msisdn == f
   | none => true)
  &&
  (match since with
   | some s => if s = "" then true else strLe s m.ts
   | none => true)
  &&
  (match q with
   | some qs => if qs = "" then true else
      match m.text with
      | none => false
      | some t =>
        likeMatch ('%' :: (sqlLower qs).data ++ ['%']) (sqlLower t).data
   | none => true)

/-- Comparison of two `(ts, message_id)` keys: the first key is at most
the second when its `ts` is strictly smaller, or the `ts` values are
equal and its `message_id` is at most the second's. -/
def tsIdLe (t1 i1 t2 i2 : String) : Bool :=
  strLt t1 t2 || (t1 == t2 && strLe i1 i2)

theorem charListLt_irrefl : ∀ l : List Char, charListLt l l = false
  | [] => rfl
  | a :: as => by
    rw [charListLt, if_neg (lt_irrefl a), if_pos rfl, charListLt_irrefl as]

theorem charListLt_trans :
    ∀ l1 l2 l3 : List Char, charListLt l1 l2 = true → charListLt l2 l3 = true →
      charListLt l1 l3 = true := by
  intro l1
  induction l1 with
  | nil =>
    intro l2 l3 h1 h2
    cases l2 with
    | nil => exact h2
    | cons b bs =>
      cases l3 with
      | nil => simp [charListLt] at h2
      | cons c cs => rfl
  | cons a as ih =>
    intro l2 l3 h1 h2
    cases l2 with
    | nil => simp [charListLt] at h1
    | cons b bs =>
      cases l3 with
      | nil => simp [charListLt] at h2
      | cons c cs =>
        rw [charListLt] at h1 h2 ⊢
        by_cases hab : a < b
        · by_cases hbc : b < c
          · rw [if_pos (lt_trans hab hbc)]
          · rw [if_neg hbc] at h2
            by_cases hbec : b = c
            · rw [if_pos (hbec ▸ hab)]
            · rw [if_neg hbec] at h2; exact absurd h2 (by simp)
        · rw [if_neg hab] at h1
          by_cases haeb : a = b
          · rw [if_pos haeb] at h1
            by_cases hbc : b < c
            · rw [if_pos (haeb ▸ hbc)]
            · rw [if_neg hbc] at h2
              by_cases hbec : b = c
              · rw [if_neg (by rw [haeb, hbec] at hab ⊢; exact hab),
                  if_pos (haeb.trans hbec)]
                rw [if_pos hbec] at h2
                exact ih bs cs h1 h2
              · rw [if_neg hbec] at h2; exact absurd h2 (by simp)
          · rw [if_neg haeb] at h1; exact absurd h1 (by simp)

theorem charListLt_connex :
    ∀ l1 l2 : List Char, charListLt l1 l2 = false → charListLt l2 l1 = false →
      l1 = l2 := by
  intro l1
  induction l1 with
  | nil =>
    intro l2 h1 _
    cases l2 with
    | nil => rfl
    | cons b bs => simp [charListLt] at h1
  | cons a as ih =>
    intro l2 h1 h2
    cases l2 with
    | nil => simp [charListLt] at h2
    | cons b bs =>
      rw [charListLt] at h1 h2
      by_cases hab : a < b
      · rw [if_pos hab] at h1; exact absurd h1 (by simp)
      · by_cases hba : b < a
        · rw [if_pos hba] at h2; exact absurd h2 (by simp)
        · have hev : a = b := le_antisymm (not_lt.mp hba) (not_lt.mp hab)
          rw [if_neg hab, if_pos hev] at h1
          rw [if_neg hba, if_pos hev.symm] at h2
          rw [hev, ih bs h1 h2]

theorem charListLt_asymm {l1 l2 : List Char}
    (h : charListLt l1 l2 = true) : charListLt l2 l1 = false := by
  by_contra h2
  have h2 := eq_true_of_ne_false h2
  have := charListLt_trans l1 l2 l1 h h2
  rw [charListLt_irrefl l1] at this
  exact absurd this (by simp)

theorem strLt_of_data {a b : String} (h : charListLt a.data b.data = true) :
    strLt a b = true := h

theorem string_eq_of_data {a b : String} (h : a.data = b.data) : a = b := by
  cases a; cases b; exact congrArg String.mk h

theorem tsIdLe_total (t1 i1 t2 i2 : String) :
    tsIdLe t1 i1 t2 i2 = true ∨ tsIdLe t2 i2 t1 i1 = true := by
  unfold tsIdLe strLe strLt
  by_cases h12 : charListLt t1.data t2.data = true
  · left; rw [h12]; rfl
  · by_cases h21 : charListLt t2.data t1.data = true
    · right; rw [h21]; rfl
    · have he : t1 = t2 :=
        string_eq_of_data
          (charListLt_connex _ _ (eq_false_of_ne_true h12) (eq_false_of_ne_true h21))
      by_cases hi : charListLt i2.data i1.data = true
      · right
        simp [eq_false_of_ne_true h21, he, charListLt_asymm hi]
      · left
        simp [eq_false_of_ne_true h12, he, eq_false_of_ne_true hi]

theorem tsIdLe_trans {t1 i1 t2 i2 t3 i3 : String}
    (h1 : tsIdLe t1 i1 t2 i2 = true) (h2 : tsIdLe t2 i2 t3 i3 = true) :
    tsIdLe t1 i1 t3 i3 = true := by
  unfold tsIdLe strLe strLt at h1 h2 ⊢
  rcases Bool.or_eq_true_iff.mp h1 with ha | ha
  · rcases Bool.or_eq_true_iff.mp h2 with hb | hb
    · exact Bool.or_eq_true_iff.mpr (Or.inl (charListLt_trans _ _ _ ha hb))
    · have he : t2 = t3 := eq_of_beq (Bool.and_eq_true_iff.mp hb).1
      exact Bool.or_eq_true_iff.mpr (Or.inl (he ▸ ha))
  · have he : t1 = t2 := eq_of_beq (Bool.and_eq_true_iff.mp ha).1
    rcases Bool.or_eq_true_iff.mp h2 with hb | hb
    · exact Bool.or_eq_true_iff.mpr (Or.inl (he ▸ hb))
    · have he2 : t2 = t3 := eq_of_beq (Bool.and_eq_true_iff.mp hb).1
      have hi1 : charListLt i2.data i1.data = false :=
        Bool.not_eq_true _ ▸ Bool.of_not_eq_true
          (by simpa using (Bool.and_eq_true_iff.mp ha).2)
      have hi2 : charListLt i3.data i2.data = false :=
        Bool.not_eq_true _ ▸ Bool.of_not_eq_true
          (by simpa using (Bool.and_eq_true_iff.mp hb).2)
      have hi3 : charListLt i3.data i1.data = false := by
        by_contra hc
        have hc := eq_true_of_ne_false hc
        by_cases hd : charListLt i2.data i3.data = true
        · have := charListLt_trans _ _ _ hd hc
          rw [this] at hi1
          exact absurd hi1 (by simp)
        · have he3 : i3 = i2 :=
            string_eq_of_data (charListLt_connex _ _ hi2 (eq_false_of_ne_true hd))
          rw [he3] at hc
          rw [hc] at hi1
          exact absurd hi1 (by simp)
      refine Bool.or_eq_true_iff.mpr (Or.inr (Bool.and_eq_true_iff.mpr ⟨?_, ?_⟩))
      · exact beq_iff_eq.mpr (he.trans he2)
      · simpa using hi3

/-- The `ORDER BY ts ASC, message_id ASC` relation on rows.  SQLite
compares TEXT values bytewise (memcmp over UTF-8), which coincides with
the codepoint-lexicographic order on characters modelled by
`charListLt`. -/
def msgLe (a b : Message) : Prop :=
  tsIdLe a.ts a.message_id b.ts b.message_id = true

instance : DecidableRel msgLe := fun a b =>
  inferInstanceAs (Decidable (tsIdLe a.ts a.message_id b.ts b.message_id = true))

instance : IsTotal Message msgLe where
  total a b := tsIdLe_total a.ts a.message_id b.ts b.message_id

instance : IsTrans Message msgLe where
  trans _ _ _ hab hbc := tsIdLe_trans hab hbc

/-- The `LIMIT ? OFFSET ?` slice with SQLite semantics: a negative
offset is treated as 0, a negative limit means no limit. -/
def applyLimitOffset {α : Type} (limit offset : Int) (l : List α) : List α :=
  let l2 := l.drop (max offset 0).toNat
  if limit < 0 then l2 else l2.take limit.toNat

/-- One element of the response's `data` array (src/main.py lines
173-181): the stored row minus `created_at`.  The JSON keys `from` and
`to` are served from the `from_msisdn` / `to_msisdn` columns. -/
structure MessageOut where
  message_id : String
  from_msisdn : String
  to_msisdn : String
  ts : String
  text : Option String
deriving Repr, DecidableEq

/-- Projection of a stored row to its listed form. -/
def toOut (m : Message) : MessageOut :=
  { message_id := m.message_id
    from_msisdn := m.from_msisdn
    to_msisdn := m.to_msisdn
    ts := m.ts
    text := m.text }

/-- The response of `GET /messages` (src/main.py lines 172-185). -/
structure MessagesPage where
  data : List MessageOut
  total : Nat
  limit : Int
  offset : Int
deriving Repr, DecidableEq

/-- The `GET /messages` handler (src/main.py lines 136-185): builds the
conjunctive filter from the truthy parameters, computes `total` as
`COUNT(*)` under that filter, and returns the filtered rows ordered by
`(ts ASC, message_id ASC)` and sliced by `LIMIT ? OFFSET ?`, echoing
`limit` and `offset`. -/
def get_messages (store : List Message) (limit offset : Int)
    (from_ since q : Option String) : MessagesPage :=
  let filtered := store.filter (rowMatches from_ since q)
  { data := (applyLimitOffset limit offset (List.insertionSort msgLe filtered)).map toOut
    total := filtered.length
    limit := limit
    offset := offset }

/-- One row of the `GROUP BY from_msisdn` aggregation in `stats`
(src/main.py lines 192-198). -/
structure SenderCount where
  sender : String
  count : Nat
deriving Repr, DecidableEq

/-- The `ORDER BY count DESC` relation on aggregated sender rows (ties
are left unspecified by the source; the embedding's sort is stable). -/
def scGe (a b : SenderCount) : Prop := b.count ≤ a.count

instance : DecidableRel scGe := fun a b =>
  inferInstanceAs (Decidable (b.count ≤ a.count))

instance : IsTotal SenderCount scGe where
  total a b := Nat.le_total b.count a.count

instance : IsTrans SenderCount scGe where
  trans _ _ _ hab hbc := Nat.le_trans hbc hab

/-- The distinct values of `from_msisdn` in the store, in first-appearance
order (the `GROUP BY from_msisdn` groups). -/
def distinctSenders (store : List Message) : List String :=
  store.foldl
    (fun acc m => if acc.contains m.from_msisdn then acc else acc ++ [m.from_msisdn])
    []

/-- The `GROUP BY from_msisdn` aggregation: each distinct sender with its
`COUNT(*)`. -/
def senderCounts (store : List Message) : List SenderCount :=
  (distinctSenders store).map
    (fun s => ⟨s, store.countP (fun m => m.from_msisdn == s)⟩)

/-- `SELECT MIN(ts) FROM messages`: NULL on an empty table, the bytewise
minimum otherwise. -/
def minTs (store : List Message) : Option String :=
  match store.map Message.ts with
  | [] => none
  | t :: rest => some (rest.foldl (fun a b => if strLt b a then b else a) t)

/-- `SELECT MAX(ts) FROM messages`. -/
def maxTs (store : List Message) : Option String :=
  match store.map Message.ts with
  | [] => none
  | t :: rest => some (rest.foldl (fun a b => if strLt a b then b else a) t)

/-- The response of `GET /stats` (src/main.py lines 205-213). -/
structure StatsOut where
  total_messages : Nat
  senders_count : Nat
  messages_per_sender : List SenderCount
  first_message_ts : Option String
  last_message_ts : Option String
deriving Repr, DecidableEq

/-- The `GET /stats` handler (src/main.py lines 187-213): total row
count; the sender aggregation ordered by count descending and truncated
by `LIMIT 10`; `senders_count` is `len(senders)`, i.e. the length of that
already-truncated list; min and max `ts`. -/
def stats (store : List Message) : StatsOut :=
  let senders := (List.insertionSort scGe (senderCounts store)).take 10
  { total_messages := store.length
    senders_count := senders.length
    messages_per_sender := senders
    first_message_ts := minTs store
    last_message_ts := maxTs store }

/-! ### Shared helper definitions and lemmas -/

/-- A string of `n` repetitions of the character `x`, used to probe the
4096-character bound on `text`. -/
def longTxt (n : Nat) : String := ⟨List.replicate n 'x'⟩

theorem longTxt_length (n : Nat) : (longTxt n).length = n := by
  simp [longTxt, String.length]

/-- Validation of a payload carrying all five keys with string values
reduces to the individual field checks; in particular the `text` bound is
the only remaining condition once the other fields are acceptable. -/
theorem validate_with_text (mid f t ts x : String)
    (hmid : 1 ≤ mid.length) (hf : isMsisdn f = true) (ht : isMsisdn t = true) :
    validatePayload [("message_id", .str mid), ("from", .str f), ("to", .str t),
      ("ts", .str ts), ("text", .str x)] =
    if x.length ≤ 4096 then some ⟨mid, f, t, ts, some x⟩ else none := by
  simp [validatePayload, List.lookup, hmid, hf, ht]

/-- The map `g` agrees with `f` except at `k`, where it is one larger:
exactly one counter was incremented, by one. -/
def BumpedOnly {κ : Type} (f g : κ → Nat) (k : κ) : Prop :=
  g k = f k + 1 ∧ ∀ k2, k2 ≠ k → g k2 = f k2

theorem bumpedOnly_inc_http (f : String × Nat → Nat) (p : String) (s : Nat) :
    BumpedOnly f (inc_http f p s) (p, s) :=
  ⟨by simp [inc_http], fun k2 hk => by simp [inc_http, hk]⟩

theorem bumpedOnly_inc_webhook (f : String → Nat) (r : String) :
    BumpedOnly f (inc_webhook f r) r :=
  ⟨by simp [inc_webhook], fun k2 hk => by simp [inc_webhook, hk]⟩

/-- The `(ts ASC, message_id ASC)` order on listed rows. -/
def outLe (a b : MessageOut) : Prop :=
  tsIdLe a.ts a.message_id b.ts b.message_id = true

theorem applyLimitOffset_sublist {α : Type} (limit offset : Int) (l : List α) :
    List.Sublist (applyLimitOffset limit offset l) l := by
  unfold applyLimitOffset
  by_cases h : limit < 0
  · simpa [h] using List.drop_sublist _ _
  · simp only [h, if_false]
    exact (List.take_sublist _ _).trans (List.drop_sublist _ _)

/-! ### Claim theorems -/

/-- C2: a `POST /webhook` request whose `X-Signature` header differs from
the hex HMAC-SHA256 of the raw body — including a missing header — gets a
401 response, is classified `invalid_signature` in the log line and the
webhook counter, and the store is untouched, regardless of the payload. -/
theorem c2_invalid_signature_rejected
    (secret body now : String) (hmacHex : String → String → String)
    (signature : Option String) (parsed : Option Payload) (st : AppState)
    (h : signature ≠ some (hmacHex secret body)) :
    (webhook secret hmacHex body signature parsed now st).2 =
        .httpError 401 "invalid signature" ∧
    responseStatus (webhook secret hmacHex body signature parsed now st).2 = 401 ∧
    (webhook secret hmacHex body signature parsed now st).1.store = st.store ∧
    (webhook secret hmacHex body signature parsed now st).1.webhookMetrics
        "invalid_signature" = st.webhookMetrics "invalid_signature" + 1 ∧
    (webhook secret hmacHex body signature parsed now st).1.httpMetrics
        ("/webhook", 401) = st.httpMetrics ("/webhook", 401) + 1 ∧
    (webhook secret hmacHex body signature parsed now st).1.logs =
        st.logs ++ [⟨"/webhook", 401, some "invalid_signature", none, none⟩] := by
  simp [webhook, h, inc_http, inc_webhook, responseStatus]

/-- Witness for C2 at a concrete request with a missing header. -/
theorem c2_invalid_signature_rejected_witness :
    ((none : Option String) ≠ some ((fun _ _ => "h") "s" "b")) ∧
    ((webhook "s" (fun _ _ => "h") "b" none none "n" initialState).2 =
        .httpError 401 "invalid signature" ∧
    responseStatus (webhook "s" (fun _ _ => "h") "b" none none "n" initialState).2 = 401 ∧
    (webhook "s" (fun _ _ => "h") "b" none none "n" initialState).1.store =
        initialState.store ∧
    (webhook "s" (fun _ _ => "h") "b" none none "n" initialState).1.webhookMetrics
        "invalid_signature" = initialState.webhookMetrics "invalid_signature" + 1 ∧
    (webhook "s" (fun _ _ => "h") "b" none none "n" initialState).1.httpMetrics
        ("/webhook", 401) = initialState.httpMetrics ("/webhook", 401) + 1 ∧
    (webhook "s" (fun _ _ => "h") "b" none none "n" initialState).1.logs =
        initialState.logs ++ [⟨"/webhook", 401, some "invalid_signature", none, none⟩]) :=
  ⟨by decide,
    c2_invalid_signature_rejected "s" "b" "n" (fun _ _ => "h") none none initialState
      (by decide)⟩

/-- C1: delivering two correctly signed, valid messages that share a
`message_id` (fields otherwise arbitrary) to a store not yet holding that
id yields two 200 `ok` responses; afterwards the store holds exactly one
record for that id, carrying the first delivery's field values, and the
second attempt is classified `duplicate` (counter incremented, log line
appended). -/
theorem c1_idempotent_duplicate
    (secret body1 body2 now1 now2 : String) (hmacHex : String → String → String)
    (data1 data2 : Payload) (msg1 msg2 : WebhookMessage) (st : AppState)
    (hv1 : validatePayload data1 = some msg1)
    (hv2 : validatePayload data2 = some msg2)
    (hid : msg2.message_id = msg1.message_id)
    (hfresh : ∀ r ∈ st.store, r.message_id ≠ msg1.message_id) :
    (signedWebhook secret hmacHex body1 (some data1) now1 st).2 = .ok ∧
    responseStatus (signedWebhook secret hmacHex body1 (some data1) now1 st).2 = 200 ∧
    (signedWebhook secret hmacHex body2 (some data2) now2
        (signedWebhook secret hmacHex body1 (some data1) now1 st).1).2 = .ok ∧
    (signedWebhook secret hmacHex body2 (some data2) now2
        (signedWebhook secret hmacHex body1 (some data1) now1 st).1).1.store =
      st.store ++ [mkRecord msg1 now1] ∧
    ((signedWebhook secret hmacHex body2 (some data2) now2
        (signedWebhook secret hmacHex body1 (some data1) now1 st).1).1.store.countP
      (fun r => r.message_id == msg1.message_id)) = 1 ∧
    (signedWebhook secret hmacHex body2 (some data2) now2
        (signedWebhook secret hmacHex body1 (some data1) now1 st).1).1.webhookMetrics
      "duplicate" =
      (signedWebhook secret hmacHex body1 (some data1) now1 st).1.webhookMetrics
        "duplicate" + 1 ∧
    (signedWebhook secret hmacHex body2 (some data2) now2
        (signedWebhook secret hmacHex body1 (some data1) now1 st).1).1.logs =
      (signedWebhook secret hmacHex body1 (some data1) now1 st).1.logs ++
        [⟨"/webhook", 200, some "duplicate", some msg2.message_id, some true⟩] := by
  have hins1 : insertMessage st.store (mkRecord msg1 now1) =
      some (st.store ++ [mkRecord msg1 now1]) := by
    unfold insertMessage
    rw [if_neg]
    simp only [List.any_eq_true, beq_iff_eq, mkRecord, not_exists, not_and]
    exact fun r hr => hfresh r hr
  have e1 : signedWebhook secret hmacHex body1 (some data1) now1 st =
      ({ st with
          store := st.store ++ [mkRecord msg1 now1]
          httpMetrics := inc_http st.httpMetrics "/webhook" 200
          webhookMetrics := inc_webhook st.webhookMetrics "created"
          logs := st.logs ++
            [⟨"/webhook", 200, some "created", some msg1.message_id, some false⟩] },
        .ok) := by
    unfold signedWebhook webhook
    rw [if_neg (by simp)]
    simp only [hv1, hins1]
  have hins2 : insertMessage (st.store ++ [mkRecord msg1 now1]) (mkRecord msg2 now2) =
      none := by
    unfold insertMessage
    rw [if_pos]
    simp [mkRecord, hid]
  rw [e1]
  unfold signedWebhook webhook
  rw [if_neg (by simp)]
  simp only [hv2, hins2]
  refine ⟨by trivial, by trivial, by trivial, by trivial, ?_,
    by simp [inc_webhook], by trivial⟩
  rw [List.countP_append, List.countP_eq_zero.mpr ?_]
  · simp [mkRecord]
  · intro r hr
    simp only [beq_iff_eq]
    intro hcontra
    exact hfresh r hr hcontra

/-- Witness for C1: a concrete pair of deliveries sharing `message_id`
`m1` but differing in every other field, against an empty store. -/
theorem c1_idempotent_duplicate_witness :
    (validatePayload [("message_id", .str "m1"), ("from", .str "+1"), ("to", .str "+2"),
        ("ts", .str "t1"), ("text", .str "hi")] =
      some ⟨"m1", "+1", "+2", "t1", some "hi"⟩) ∧
    (validatePayload [("message_id", .str "m1"), ("from", .str "+3"), ("to", .str "+4"),
        ("ts", .str "t2")] = some ⟨"m1", "+3", "+4", "t2", none⟩) ∧
    ((⟨"m1", "+3", "+4", "t2", none⟩ : WebhookMessage).message_id =
      (⟨"m1", "+1", "+2", "t1", some "hi"⟩ : WebhookMessage).message_id) ∧
    (∀ r ∈ initialState.store,
      r.message_id ≠ (⟨"m1", "+1", "+2", "t1", some "hi"⟩ : WebhookMessage).message_id) ∧
    ((signedWebhook "s" (fun _ _ => "h") "b1"
        (some [("message_id", .str "m1"), ("from", .str "+1"), ("to", .str "+2"),
          ("ts", .str "t1"), ("text", .str "hi")]) "n1" initialState).2 = .ok ∧
    responseStatus (signedWebhook "s" (fun _ _ => "h") "b1"
        (some [("message_id", .str "m1"), ("from", .str "+1"), ("to", .str "+2"),
          ("ts", .str "t1"), ("text", .str "hi")]) "n1" initialState).2 = 200 ∧
    (signedWebhook "s" (fun _ _ => "h") "b2"
        (some [("message_id", .str "m1"), ("from", .str "+3"), ("to", .str "+4"),
          ("ts", .str "t2")]) "n2"
        (signedWebhook "s" (fun _ _ => "h") "b1"
          (some [("message_id", .str "m1"), ("from", .str "+1"), ("to", .str "+2"),
            ("ts", .str "t1"), ("text", .str "hi")]) "n1" initialState).1).2 = .ok ∧
    (signedWebhook "s" (fun _ _ => "h") "b2"
        (some [("message_id", .str "m1"), ("from", .str "+3"), ("to", .str "+4"),
          ("ts", .str "t2")]) "n2"
        (signedWebhook "s" (fun _ _ => "h") "b1"
          (some [("message_id", .str "m1"), ("from", .str "+1"), ("to", .str "+2"),
            ("ts", .str "t1"), ("text", .str "hi")]) "n1" initialState).1).1.store =
      initialState.store ++
        [mkRecord ⟨"m1", "+1", "+2", "t1", some "hi"⟩ "n1"] ∧
    ((signedWebhook "s" (fun _ _ => "h") "b2"
        (some [("message_id", .str "m1"), ("from", .str "+3"), ("to", .str "+4"),
          ("ts", .str "t2")]) "n2"
        (signedWebhook "s" (fun _ _ => "h") "b1"
          (some [("message_id", .str "m1"), ("from", .str "+1"), ("to", .str "+2"),
            ("ts", .str "t1"), ("text", .str "hi")]) "n1" initialState).1).1.store.countP
      (fun r => r.message_id ==
        (⟨"m1", "+1", "+2", "t1", some "hi"⟩ : WebhookMessage).message_id)) = 1 ∧
    (signedWebhook "s" (fun _ _ => "h") "b2"
        (some [("message_id", .str "m1"), ("from", .str "+3"), ("to", .str "+4"),
          ("ts", .str "t2")]) "n2"
        (signedWebhook "s" (fun _ _ => "h") "b1"
          (some [("message_id", .str "m1"), ("from", .str "+1"), ("to", .str "+2"),
            ("ts", .str "t1"), ("text", .str "hi")]) "n1" initialState).1).1.webhookMetrics
      "duplicate" =
      (signedWebhook "s" (fun _ _ => "h") "b1"
        (some [("message_id", .str "m1"), ("from", .str "+1"), ("to", .str "+2"),
          ("ts", .str "t1"), ("text", .str "hi")]) "n1" initialState).1.webhookMetrics
        "duplicate" + 1 ∧
    (signedWebhook "s" (fun _ _ => "h") "b2"
        (some [("message_id", .str "m1"), ("from", .str "+3"), ("to", .str "+4"),
          ("ts", .str "t2")]) "n2"
        (signedWebhook "s" (fun _ _ => "h") "b1"
          (some [("message_id", .str "m1"), ("from", .str "+1"), ("to", .str "+2"),
            ("ts", .str "t1"), ("text", .str "hi")]) "n1" initialState).1).1.logs =
      (signedWebhook "s" (fun _ _ => "h") "b1"
        (some [("message_id", .str "m1"), ("from", .str "+1"), ("to", .str "+2"),
          ("ts", .str "t1"), ("text", .str "hi")]) "n1" initialState).1.logs ++
        [⟨"/webhook", 200, some "duplicate",
          some (⟨"m1", "+3", "+4", "t2", none⟩ : WebhookMessage).message_id, some true⟩]) :=
  ⟨by decide, by decide, rfl, by simp [initialState],
    c1_idempotent_duplicate "s" "b1" "b2" "n1" "n2" (fun _ _ => "h") _ _ _ _ initialState
      (by decide) (by decide) rfl (by simp [initialState])⟩

/-- C3 counterexample: a correctly signed request whose payload fails
validation (`from` lacks the leading `+`) makes the handler raise an
exception that it does not catch; the framework's response for an
uncaught exception is 500, which is not a client-error (4xx) status.
Persistence is indeed never attempted. -/
theorem c3_counterexample :
    (signedWebhook "s" (fun _ _ => "h") "b"
        (some [("message_id", .str "m"), ("from", .str "12345"), ("to", .str "+2"),
          ("ts", .str "t")]) "n" initialState).2 = .unhandledError ∧
    responseStatus (signedWebhook "s" (fun _ _ => "h") "b"
        (some [("message_id", .str "m"), ("from", .str "12345"), ("to", .str "+2"),
          ("ts", .str "t")]) "n" initialState).2 = 500 ∧
    ¬ (400 ≤ responseStatus (signedWebhook "s" (fun _ _ => "h") "b"
        (some [("message_id", .str "m"), ("from", .str "12345"), ("to", .str "+2"),
          ("ts", .str "t")]) "n" initialState).2 ∧
       responseStatus (signedWebhook "s" (fun _ _ => "h") "b"
        (some [("message_id", .str "m"), ("from", .str "12345"), ("to", .str "+2"),
          ("ts", .str "t")]) "n" initialState).2 < 500) ∧
    (signedWebhook "s" (fun _ _ => "h") "b"
        (some [("message_id", .str "m"), ("from", .str "12345"), ("to", .str "+2"),
          ("ts", .str "t")]) "n" initialState).1.store = initialState.store := by
  decide

/-- C3 amended: for every correctly signed request whose body fails JSON
parsing or payload validation, the handler raises before touching the
database — the state (store, metrics, logs) is completely unchanged and
the exception escapes, surfacing as the framework's 500 response rather
than a structured 4xx. -/
theorem c3_validation_failure_no_persist
    (secret body now : String) (hmacHex : String → String → String)
    (parsed : Option Payload) (st : AppState)
    (h : parsed = none ∨ ∃ data, parsed = some data ∧ validatePayload data = none) :
    (signedWebhook secret hmacHex body parsed now st).1 = st ∧
    (signedWebhook secret hmacHex body parsed now st).2 = .unhandledError ∧
    responseStatus (signedWebhook secret hmacHex body parsed now st).2 = 500 := by
  rcases h with h | ⟨data, hp, hv⟩
  · subst h
    unfold signedWebhook webhook
    rw [if_neg (by simp)]
    exact ⟨rfl, rfl, rfl⟩
  · subst hp
    unfold signedWebhook webhook
    rw [if_neg (by simp)]
    simp only [hv]
    exact ⟨by trivial, by trivial, by trivial⟩

/-- Witness for C3 (amended) at a concrete signed request whose `ts`
field is a number instead of a string. -/
theorem c3_validation_failure_no_persist_witness :
    ((some [("message_id", JValue.str "m"), ("from", JValue.str "+1"),
        ("to", JValue.str "+2"), ("ts", JValue.num 5)] : Option Payload) = none ∨
      ∃ data, (some [("message_id", JValue.str "m"), ("from", JValue.str "+1"),
        ("to", JValue.str "+2"), ("ts", JValue.num 5)] : Option Payload) = some data ∧
        validatePayload data = none) ∧
    ((signedWebhook "s" (fun _ _ => "h") "b"
        (some [("message_id", JValue.str "m"), ("from", JValue.str "+1"),
          ("to", JValue.str "+2"), ("ts", JValue.num 5)]) "n" initialState).1 =
      initialState ∧
    (signedWebhook "s" (fun _ _ => "h") "b"
        (some [("message_id", JValue.str "m"), ("from", JValue.str "+1"),
          ("to", JValue.str "+2"), ("ts", JValue.num 5)]) "n" initialState).2 =
      .unhandledError ∧
    responseStatus (signedWebhook "s" (fun _ _ => "h") "b"
        (some [("message_id", JValue.str "m"), ("from", JValue.str "+1"),
          ("to", JValue.str "+2"), ("ts", JValue.num 5)]) "n" initialState).2 = 500) :=
  ⟨Or.inr ⟨_, rfl, by decide⟩,
    c3_validation_failure_no_persist "s" "b" "n" (fun _ _ => "h") _ initialState
      (Or.inr ⟨_, rfl, by decide⟩)⟩

/-- C4 counterexample: a store with 11 messages from 11 distinct senders.
`stats` computes `senders_count` as the length of the sender list already
truncated by `LIMIT 10`, so it reports 10, not the distinct-sender count
K = 11 that the claim asserts. -/
theorem c4_counterexample :
    (distinctSenders
      [⟨"m0", "+10", "+2", "t", none, "n"⟩, ⟨"m1", "+11", "+2", "t", none, "n"⟩,
       ⟨"m2", "+12", "+2", "t", none, "n"⟩, ⟨"m3", "+13", "+2", "t", none, "n"⟩,
       ⟨"m4", "+14", "+2", "t", none, "n"⟩, ⟨"m5", "+15", "+2", "t", none, "n"⟩,
       ⟨"m6", "+16", "+2", "t", none, "n"⟩, ⟨"m7", "+17", "+2", "t", none, "n"⟩,
       ⟨"m8", "+18", "+2", "t", none, "n"⟩, ⟨"m9", "+19", "+2", "t", none, "n"⟩,
       ⟨"m10", "+20", "+2", "t", none, "n"⟩]).length = 11 ∧
    (stats
      [⟨"m0", "+10", "+2", "t", none, "n"⟩, ⟨"m1", "+11", "+2", "t", none, "n"⟩,
       ⟨"m2", "+12", "+2", "t", none, "n"⟩, ⟨"m3", "+13", "+2", "t", none, "n"⟩,
       ⟨"m4", "+14", "+2", "t", none, "n"⟩, ⟨"m5", "+15", "+2", "t", none, "n"⟩,
       ⟨"m6", "+16", "+2", "t", none, "n"⟩, ⟨"m7", "+17", "+2", "t", none, "n"⟩,
       ⟨"m8", "+18", "+2", "t", none, "n"⟩, ⟨"m9", "+19", "+2", "t", none, "n"⟩,
       ⟨"m10", "+20", "+2", "t", none, "n"⟩]).senders_count = 10 ∧
    (10 : Nat) ≠ 11 := by
  decide

/-- C4 amended: on the empty store `stats` reports `total_messages = 0`
and null first/last timestamps; on any store, `total_messages` is the row
count, `messages_per_sender` has at most 10 entries and is sorted by
count descending, and `senders_count` equals the number K of distinct
senders capped at 10 (`min K 10`), not K itself. -/
theorem c4_stats_values (store : List Message) :
    (stats []).total_messages = 0 ∧
    (stats []).first_message_ts = none ∧
    (stats []).last_message_ts = none ∧
    (stats store).total_messages = store.length ∧
    (stats store).senders_count = min (distinctSenders store).length 10 ∧
    (stats store).messages_per_sender.length ≤ 10 ∧
    List.Sorted scGe (stats store).messages_per_sender := by
  refine ⟨rfl, rfl, rfl, rfl, ?_, ?_, ?_⟩
  · show ((List.insertionSort scGe (senderCounts store)).take 10).length = _
    rw [List.length_take, List.length_insertionSort]
    unfold senderCounts
    rw [List.length_map, Nat.min_comm]
  · show ((List.insertionSort scGe (senderCounts store)).take 10).length ≤ 10
    rw [List.length_take]
    exact Nat.min_le_left _ _
  · show List.Sorted scGe ((List.insertionSort scGe (senderCounts store)).take 10)
    exact List.Pairwise.sublist (List.take_sublist _ _)
      (List.sorted_insertionSort scGe _)

/-- C5 counterexample: a correctly signed request with an invalid payload
(`from` lacking the `+`) takes the validation-failure path, where the
handler raises before reaching any `log`/counter call: zero log lines are
emitted and every counter is unchanged (still 0 from the initial state),
contradicting the claimed "exactly one" for that path. -/
theorem c5_counterexample :
    (signedWebhook "s" (fun _ _ => "h") "b"
        (some [("message_id", .str "m"), ("from", .str "bad"), ("to", .str "+2"),
          ("ts", .str "t")]) "n" initialState).1.logs.length = 0 ∧
    (signedWebhook "s" (fun _ _ => "h") "b"
        (some [("message_id", .str "m"), ("from", .str "bad"), ("to", .str "+2"),
          ("ts", .str "t")]) "n" initialState).1.httpMetrics ("/webhook", 200) = 0 ∧
    (signedWebhook "s" (fun _ _ => "h") "b"
        (some [("message_id", .str "m"), ("from", .str "bad"), ("to", .str "+2"),
          ("ts", .str "t")]) "n" initialState).1.httpMetrics ("/webhook", 401) = 0 ∧
    (signedWebhook "s" (fun _ _ => "h") "b"
        (some [("message_id", .str "m"), ("from", .str "bad"), ("to", .str "+2"),
          ("ts", .str "t")]) "n" initialState).1.webhookMetrics "created" = 0 ∧
    (signedWebhook "s" (fun _ _ => "h") "b"
        (some [("message_id", .str "m"), ("from", .str "bad"), ("to", .str "+2"),
          ("ts", .str "t")]) "n" initialState).1.webhookMetrics "duplicate" = 0 ∧
    (signedWebhook "s" (fun _ _ => "h") "b"
        (some [("message_id", .str "m"), ("from", .str "bad"), ("to", .str "+2"),
          ("ts", .str "t")]) "n" initialState).1.webhookMetrics "invalid_signature" = 0 ∧
    (signedWebhook "s" (fun _ _ => "h") "b"
        (some [("message_id", .str "m"), ("from", .str "bad"), ("to", .str "+2"),
          ("ts", .str "t")]) "n" initialState).2 = .unhandledError := by
  decide

/-- C5 amended: on the invalid-signature, created and duplicate paths the
handler emits exactly one log line and increments exactly one key of each
counter map by one, leaving all other keys unchanged; on the
JSON-parse/validation-failure path it raises first, emitting no log line
and touching no counter (the state is returned unchanged). -/
theorem c5_one_log_one_counter_per_path
    (secret body now : String) (hmacHex : String → String → String)
    (signature : Option String) (parsed : Option Payload) (st : AppState) :
    (∃ s o,
      BumpedOnly st.httpMetrics
        (webhook secret hmacHex body signature parsed now st).1.httpMetrics
        ("/webhook", s) ∧
      BumpedOnly st.webhookMetrics
        (webhook secret hmacHex body signature parsed now st).1.webhookMetrics o ∧
      (webhook secret hmacHex body signature parsed now st).1.logs.length =
        st.logs.length + 1) ∨
    ((webhook secret hmacHex body signature parsed now st).1 = st ∧
      (webhook secret hmacHex body signature parsed now st).2 = .unhandledError) := by
  by_cases hsig : signature ≠ some (hmacHex secret body)
  · left
    refine ⟨401, "invalid_signature", ?_, ?_, ?_⟩ <;>
      simp [webhook, hsig, bumpedOnly_inc_http, bumpedOnly_inc_webhook]
  · rcases parsed with _ | data
    · right
      unfold webhook
      rw [if_neg hsig]
      exact ⟨rfl, rfl⟩
    · rcases hval : validatePayload data with _ | msg
      · right
        unfold webhook
        rw [if_neg hsig]
        simp only [hval]
        exact ⟨by trivial, by trivial⟩
      · left
        rcases hins : insertMessage st.store (mkRecord msg now) with _ | store2
        · refine ⟨200, "duplicate", ?_, ?_, ?_⟩ <;>
            (unfold webhook; rw [if_neg hsig]; simp only [hval, hins]) <;>
            simp [bumpedOnly_inc_http, bumpedOnly_inc_webhook]
        · refine ⟨200, "created", ?_, ?_, ?_⟩ <;>
            (unfold webhook; rw [if_neg hsig]; simp only [hval, hins]) <;>
            simp [bumpedOnly_inc_http, bumpedOnly_inc_webhook]

/-- C6: the payload validator accepts and rejects exactly the boundary
values named by the spec: `from = "12345"` (no leading `+`) is rejected
while `from = "+12345"` is accepted; a `text` of length 4097 is rejected
while length 4096 is accepted; an empty `message_id` is rejected; `text`
may be absent or JSON null (both yielding no text). -/
theorem c6_validation_boundaries :
    validatePayload [("message_id", .str "m1"), ("from", .str "12345"),
      ("to", .str "+15557654321"), ("ts", .str "2024-01-01")] = none ∧
    validatePayload [("message_id", .str "m1"), ("from", .str "+12345"),
      ("to", .str "+15557654321"), ("ts", .str "2024-01-01")] =
      some ⟨"m1", "+12345", "+15557654321", "2024-01-01", none⟩ ∧
    validatePayload [("message_id", .str "m1"), ("from", .str "+12345"),
      ("to", .str "+15557654321"), ("ts", .str "2024-01-01"),
      ("text", .str (longTxt 4097))] = none ∧
    (validatePayload [("message_id", .str "m1"), ("from", .str "+12345"),
      ("to", .str "+15557654321"), ("ts", .str "2024-01-01"),
      ("text", .str (longTxt 4096))]).isSome = true ∧
    validatePayload [("message_id", .str ""), ("from", .str "+12345"),
      ("to", .str "+15557654321"), ("ts", .str "2024-01-01")] = none ∧
    validatePayload [("message_id", .str "m1"), ("from", .str "+12345"),
      ("to", .str "+15557654321"), ("ts", .str "2024-01-01"), ("text", .null)] =
      some ⟨"m1", "+12345", "+15557654321", "2024-01-01", none⟩ := by
  refine ⟨by decide, by decide, ?_, ?_, by decide, by decide⟩
  · rw [validate_with_text _ _ _ _ _ (by decide) (by decide) (by decide), longTxt_length]
    simp
  · rw [validate_with_text _ _ _ _ _ (by decide) (by decide) (by decide), longTxt_length]
    simp

/-- C7: every `GET /messages` result page is ordered by `ts` ascending
with `message_id` ascending as tie-break; in particular, for stored
messages with ids `b`, `a`, `c` and timestamps `2024-01-02`,
`2024-01-01`, `2024-01-01`, the returned order of ids is `a`, `c`, `b`. -/
theorem c7_listing_order :
    (∀ (store : List Message) (limit offset : Int) (f s q : Option String),
      List.Sorted outLe (get_messages store limit offset f s q).data) ∧
    (get_messages
        [⟨"b", "+1", "+2", "2024-01-02", some "x", "n"⟩,
         ⟨"a", "+1", "+2", "2024-01-01", some "hello", "n"⟩,
         ⟨"c", "+3", "+2", "2024-01-01", none, "n"⟩] 50 0
        none none none).data.map MessageOut.message_id = ["a", "c", "b"] := by
  constructor
  · intro store limit offset f s q
    show List.Sorted outLe ((applyLimitOffset limit offset
      (List.insertionSort msgLe (store.filter (rowMatches f s q)))).map toOut)
    have hsorted : List.Sorted msgLe
        (List.insertionSort msgLe (store.filter (rowMatches f s q))) :=
      List.sorted_insertionSort msgLe _
    have hslice : List.Sorted msgLe (applyLimitOffset limit offset
        (List.insertionSort msgLe (store.filter (rowMatches f s q)))) :=
      List.Pairwise.sublist (applyLimitOffset_sublist _ _ _) hsorted
    exact hslice.map toOut (fun _ _ h => h)
  · decide

/-- The `from_msisdn = ?` clause, applied when the `from` parameter is
truthy (present and non-empty). -/
def fromClause (f : Option String) (m : Message) : Bool :=
  match f with
  | some v => if v = "" then true else m.from_msisdn == v
  | none => true

/-- The `ts >= ?` clause, applied when the `since` parameter is truthy. -/
def sinceClause (s : Option String) (m : Message) : Bool :=
  match s with
  | some v => if v = "" then true else strLe v m.ts
  | none => true

/-- The `LOWER(text) LIKE '%' || lower(q) || '%'` clause, applied when
the `q` parameter is truthy; a NULL `text` never matches, and `%` / `_`
inside `q` act as `LIKE` wildcards because the source interpolates `q`
into the pattern unescaped. -/
def qLikeClause (q : Option String) (m : Message) : Bool :=
  match q with
  | some qs => if qs = "" then true else
      match m.text with
      | none => false
      | some t => likeMatch ('%' :: (sqlLower qs).data ++ ['%']) (sqlLower t).data
  | none => true

/-- Whether `needle` is a prefix of `hay`, character by character. -/
def prefixOfChars : List Char → List Char → Bool
  | [], _ => true
  | _ :: _, [] => false
  | a :: as, b :: bs => a == b && prefixOfChars as bs

/-- Whether `needle` occurs as a contiguous substring of `hay`. -/
def containsChars (needle : List Char) : List Char → Bool
  | [] => prefixOfChars needle []
  | c :: cs => prefixOfChars needle (c :: cs) || containsChars needle cs

/-- Modelled from the spec: "case-insensitive substring match on `text`"
— the filter semantics the claim asserts for the `q` parameter, with no
wildcard interpretation. -/
def specContainsCI (needle hay : String) : Bool :=
  containsChars (sqlLower needle).data (sqlLower hay).data

/-- C8 counterexample: with a single stored message whose `text` is
`"x"`, the query `q = "_"` yields `total = 1` — the SQL `LIKE` pattern
`%_%` matches any non-NULL, non-empty text — even though `"_"` is not a
(case-insensitive) substring of `"x"`, so the applied filter is not the
substring containment the claim states. -/
theorem c8_counterexample :
    (get_messages [⟨"m", "+1", "+2", "t", some "x", "n"⟩] 50 0 none none
      (some "_")).total = 1 ∧
    specContainsCI "_" "x" = false := by
  decide

/-- C8 amended: the applied filter is the conjunction of exact sender
equality (when `from` is truthy), `ts >= since` (when `since` is
truthy), and a case-insensitive SQL `LIKE` match of `%q%` against `text`
— `%` and `_` in `q` acting as wildcards, NULL `text` never matching —
(when `q` is truthy); `total` counts all matching records before the
`limit`/`offset` slice; `limit` and `offset` are echoed unchanged; and
every returned row is the projection of a stored record satisfying the
conjunction. -/
theorem c8_filter_semantics (store : List Message) (limit offset : Int)
    (f s q : Option String) :
    (get_messages store limit offset f s q).limit = limit ∧
    (get_messages store limit offset f s q).offset = offset ∧
    (get_messages store limit offset f s q).total =
      store.countP (fun m => fromClause f m && sinceClause s m && qLikeClause q m) ∧
    (∀ m : Message, rowMatches f s q m =
      (fromClause f m && sinceClause s m && qLikeClause q m)) ∧
    ∀ r ∈ (get_messages store limit offset f s q).data,
      ∃ m ∈ store,
        (fromClause f m && sinceClause s m && qLikeClause q m) = true ∧ toOut m = r := by
  refine ⟨rfl, rfl, ?_, fun m => rfl, ?_⟩
  · exact (List.countP_eq_length_filter _ _).symm
  · intro r hr
    rcases List.mem_map.mp hr with ⟨m, hm, hmr⟩
    have hm2 : m ∈ List.insertionSort msgLe (store.filter (rowMatches f s q)) :=
      (applyLimitOffset_sublist _ _ _).subset hm
    have hm3 : m ∈ store.filter (rowMatches f s q) :=
      (List.perm_insertionSort msgLe _).subset hm2
    have hm4 := List.mem_filter.mp hm3
    exact ⟨m, hm4.1, hm4.2, hmr⟩

/-- Cost model of the `signature != expected` comparison at
src/main.py line 96: Python compares the two strings character by
character and stops at the first mismatch, so the number of character
comparisons performed on equal-length strings is one more than the
length of their common prefix.  `eqSteps` counts those comparisons. -/
def eqSteps : List Char → List Char → Nat
  | [], [] => 0
  | [], _ :: _ => 0
  | _ :: _, [] => 0
  | a :: as, b :: bs => 1 + (if a == b then eqSteps as bs else 0)

/-- Comparison-step count for the handler's string inequality test. -/
def strCompSteps (a b : String) : Nat := eqSteps a.data b.data

/-- C9: the source compares the caller's signature to the expected
digest with a plain `!=` (not `hmac.compare_digest`), an early-exit
comparison.  Two equally wrong signatures against the expected digest
`"abcd"` — one differing in the first character, one only in the last —
are both rejected with 401, yet cost 1 versus 4 character comparisons:
the comparison's work depends on how many leading characters agree, so
it is not constant-time-safe. -/
theorem c9_comparison_not_constant_time :
    ("xbcd" : String) ≠ "abcd" ∧ ("abce" : String) ≠ "abcd" ∧
    (webhook "s" (fun _ _ => "abcd") "b" (some "xbcd") none "n" initialState).2 =
      .httpError 401 "invalid signature" ∧
    (webhook "s" (fun _ _ => "abcd") "b" (some "abce") none "n" initialState).2 =
      .httpError 401 "invalid signature" ∧
    strCompSteps "xbcd" "abcd" = 1 ∧
    strCompSteps "abce" "abcd" = 4 ∧
    strCompSteps "xbcd" "abcd" ≠ strCompSteps "abce" "abcd" := by
  decide

/-- C10: passing an empty string for any of the filter parameters
`from`, `since`, `q` of `GET /messages` behaves exactly as omitting that
parameter — Python truthiness skips the clause for `""` just as for
`None` — so the whole response is identical. -/
theorem c10_empty_param_like_absent (store : List Message) (limit offset : Int)
    (a b : Option String) :
    get_messages store limit offset (some "") a b =
      get_messages store limit offset none a b ∧
    get_messages store limit offset a (some "") b =
      get_messages store limit offset a none b ∧
    get_messages store limit offset a b (some "") =
      get_messages store limit offset a b none := by
  refine ⟨?_, ?_, ?_⟩
  · have h : rowMatches (some "") a b = rowMatches none a b :=
      funext fun m => by simp [rowMatches]
    unfold get_messages
    rw [h]
  · have h : rowMatches a (some "") b = rowMatches a none b :=
      funext fun m => by simp [rowMatches]
    unfold get_messages
    rw [h]
  · have h : rowMatches a b (some "") = rowMatches a b none :=
      funext fun m => by simp [rowMatches]
    unfold get_messages
    rw [h]

end Lyftr
